import Mathlib

/-!
Verification of the Google Custom Search scraper (`google_search_events.py`).

The development shallowly embeds the scraper's core:
* `ScraperState` models the credential-pool fields of `GoogleSearchScraper`
  (`current_key_index`, `key_usage`); only the number of API keys and their
  usage counters matter, so keys are identified with their index.
* The HTTP layer is an oracle `Nat → HttpResp`: the response to the j-th
  `requests.get` call issued during one `google_search` call.  `HttpResp.exn`
  is a transport-level exception raised by `requests.get` itself;
  `HttpResp.resp status body` is a received response, where `body = none`
  means `response.json()` (or the field extraction) raises.
* `tryBody` is the body of the `try:` block inside the inner
  `for _ in range(len(self.api_keys))` loop; `TryResult.raised` marks the
  places where the Python code raises an exception that the bare
  `except Exception` handler catches.
* `runAttemptsE` is the inner attempts loop, `runPagesE` the outer
  `for page in range(num_pages)` loop, and `google_search` the whole method.
  The `Except Unit` result type records whether an exception escapes the
  method: `.error` would be an uncaught exception.
* `LoopState` additionally carries instrumentation that exists implicitly in
  the Python run: `reqCount` (how many `requests.get` calls were issued) and
  `trace` (the parameters of each issued request, in order).
-/

structure ScraperState where
  current_key_index : Nat
  key_usage : List Nat
deriving DecidableEq

/-- `self.rotate_api_key()`: advance to the next key, modulo the pool size. -/
def rotate_api_key (st : ScraperState) : ScraperState :=
  { st with current_key_index := (st.current_key_index + 1) % st.key_usage.length }

/-- `self.key_usage[self.get_current_api_key()] += 1`. -/
def record_key_use (st : ScraperState) : ScraperState :=
  let used := st.key_usage.getD st.current_key_index 0
  { st with key_usage := st.key_usage.set st.current_key_index (used + 1) }

/-- One entry of `data['items']`; `search_event` reads the three fields with
`item.get(..., '')`, so each is optional. -/
structure Item where
  title : Option String
  link : Option String
  snippet : Option String
deriving DecidableEq

/-- `data['queries']['request'][0]`, as read by
`req_info.get('searchTerms', query)` / `req_info.get('totalResults', '0')`. -/
structure ReqInfo where
  searchTerms : Option String
  totalResults : Option String
deriving DecidableEq

/-- A parsed JSON response body.  `request0 = none` models a missing
`queries`/`request` chain (the code then falls back to the defaults);
`items = none` models a missing `items` key (`data.get('items', [])`). -/
structure PageData where
  request0 : Option ReqInfo
  items : Option (List Item)
deriving DecidableEq

/-- The outcome of one `requests.get` call. -/
inductive HttpResp where
  | exn : HttpResp
  | resp : Nat → Option PageData → HttpResp

/-- The observable parameters of one issued request: which credential was in
`params['key']` (as an index into the pool), the page index, and the
`start` parameter `page * 10 + 1`. -/
structure Request where
  keyIndex : Nat
  page : Nat
  start : Nat
deriving DecidableEq

structure LoopState where
  scraper : ScraperState
  reqCount : Nat
  trace : List Request
  all_items : List Item
  search_terms : String
  total_results : String
deriving DecidableEq

inductive InnerExit where
  | exhausted : InnerExit
  | shortCircuit : InnerExit
  | pageDone : InnerExit
deriving DecidableEq

inductive TryResult where
  | raised : LoopState → TryResult
  | quotaContinue : LoopState → TryResult
  | exitLoop : LoopState → InnerExit → TryResult

/-- The body of the `try:` block for one attempt at one page:
issue the request, then either raise (transport error, `raise_for_status`,
malformed body), hit the quota branch (`status_code in [429, 403]`:
rotate and `continue`), or succeed (record key use, extract first-page
metadata, extend `all_items`, and `return`/`break` depending on whether
fewer than 10 items came back). -/
def tryBody (resp : HttpResp) (page : Nat) (query : String) (ls : LoopState) :
    TryResult :=
  let req : Request := ⟨ls.scraper.current_key_index, page, page * 10 + 1⟩
  let ls0 : LoopState :=
    { ls with reqCount := ls.reqCount + 1, trace := ls.trace ++ [req] }
  match resp with
  | .exn => .raised ls0
  | .resp status body =>
    if status = 429 ∨ status = 403 then
      .quotaContinue { ls0 with scraper := rotate_api_key ls0.scraper }
    else if 400 ≤ status then
      .raised ls0
    else
      let ls1 : LoopState := { ls0 with scraper := record_key_use ls0.scraper }
      match body with
      | none => .raised ls1
      | some data =>
        let ls2 : LoopState :=
          if page = 0 then
            { ls1 with
              search_terms := (data.request0.bind ReqInfo.searchTerms).getD query,
              total_results := (data.request0.bind ReqInfo.totalResults).getD "0" }
          else ls1
        let items := data.items.getD []
        let ls3 : LoopState := { ls2 with all_items := ls2.all_items ++ items }
        if items.length < 10 then .exitLoop ls3 .shortCircuit
        else .exitLoop ls3 .pageDone

/-- The inner `for _ in range(len(self.api_keys))` loop: a raised exception is
caught by the `except Exception` handler (log, sleep, next attempt);
the quota branch also continues with the next attempt. -/
def runAttemptsE (oracle : Nat → HttpResp) (query : String) (page : Nat) :
    Nat → LoopState → Except Unit (LoopState × InnerExit)
  | 0, ls => .ok (ls, .exhausted)
  | fuel + 1, ls =>
    match tryBody (oracle ls.reqCount) page query ls with
    | .raised ls1 => runAttemptsE oracle query page fuel ls1
    | .quotaContinue ls1 => runAttemptsE oracle query page fuel ls1
    | .exitLoop ls1 e => .ok (ls1, e)

/-- The outer `for page in range(num_pages)` loop.  A short page returns the
assembled result immediately; an exhausted attempts budget just moves on to
the next page. -/
def runPagesE (oracle : Nat → HttpResp) (query : String) :
    List Nat → LoopState → Except Unit LoopState
  | [], ls => .ok ls
  | p :: rest, ls =>
    match runAttemptsE oracle query p ls.scraper.key_usage.length ls with
    | .error e => .error e
    | .ok (ls1, .shortCircuit) => .ok ls1
    | .ok (ls1, .exhausted) => runPagesE oracle query rest ls1
    | .ok (ls1, .pageDone) => runPagesE oracle query rest ls1

/-- The local state at the top of `google_search`:
`all_items = []`, `search_terms = query`, `total_results = '0'`. -/
def init_loop_state (st : ScraperState) (query : String) : LoopState :=
  ⟨st, 0, [], [], query, "0"⟩

/-- `GoogleSearchScraper.google_search(query, max_results)`:
`num_pages = max_results // 10` pages, each tried by the attempts loop. -/
def google_search (oracle : Nat → HttpResp) (st : ScraperState)
    (query : String) (max_results : Nat) : Except Unit LoopState :=
  runPagesE oracle query (List.range (max_results / 10)) (init_loop_state st query)

/-- Page indices of the requests issued during a `google_search` call. -/
def result_trace_pages (r : Except Unit LoopState) : List Nat :=
  match r with
  | .ok ls => ls.trace.map fun rq => rq.page
  | .error _ => []

def result_items (r : Except Unit LoopState) : List Item :=
  match r with
  | .ok ls => ls.all_items
  | .error _ => []

def result_search_terms (r : Except Unit LoopState) : String :=
  match r with
  | .ok ls => ls.search_terms
  | .error _ => ""

def result_total_results (r : Except Unit LoopState) : String :=
  match r with
  | .ok ls => ls.total_results
  | .error _ => ""

def result_key_index (r : Except Unit LoopState) : Nat :=
  match r with
  | .ok ls => ls.scraper.current_key_index
  | .error _ => 0

/-- Does the call return normally (no exception escapes)? -/
def result_ok (r : Except Unit LoopState) : Bool :=
  match r with
  | .ok _ => true
  | .error _ => false

/-! ## Persistence and orchestration -/

/-- The value `google_search` assembles:
`{'searchTerms': ..., 'totalResults': ..., 'items': ...}`. -/
structure SearchOutcome where
  searchTerms : String
  totalResults : String
  items : List Item
deriving DecidableEq

def outcome_of (r : Except Unit LoopState) : SearchOutcome :=
  match r with
  | .ok ls => ⟨ls.search_terms, ls.total_results, ls.all_items⟩
  | .error _ => ⟨"", "0", []⟩

/-- One CSV row of the output file, in column order
`slug, searchTerms, totalResults, linkTitle, link, snippet, rank, timestamp`;
`rank = none` is the empty rank cell. -/
structure OutputRow where
  slug : String
  searchTerms : String
  totalResults : String
  linkTitle : String
  link : String
  snippet : String
  rank : Option Nat
  timestamp : String
deriving DecidableEq

def fallbackRow : OutputRow := ⟨"", "", "", "", "", "", none, ""⟩

def emptyItem : Item := ⟨none, none, none⟩

/-- The `for idx, item in enumerate(items):` loop of `search_event`, writing
one row per item with rank `idx + 1`. -/
def item_rows (slug searchTerms totalResults ts : String) :
    Nat → List Item → List OutputRow
  | _, [] => []
  | idx, item :: rest =>
    ⟨slug, searchTerms, totalResults, item.title.getD "", item.link.getD "",
        item.snippet.getD "", some (idx + 1), ts⟩ ::
      item_rows slug searchTerms totalResults ts (idx + 1) rest

/-- The rows written by `search_event` for one candidate: a single row with
empty item fields and empty rank when there are no items, otherwise one row
per item. -/
def search_event_rows (slug : String) (outcome : SearchOutcome) (ts : String) :
    List OutputRow :=
  if outcome.items = [] then
    [⟨slug, outcome.searchTerms, outcome.totalResults, "", "", "", none, ts⟩]
  else
    item_rows slug outcome.searchTerms outcome.totalResults ts 0 outcome.items

/-- `load_processed_slugs`: the `slug` column of the existing output file
(read into the set `self.processed_slugs`; membership is what matters). -/
def load_processed_slugs (rows : List OutputRow) : List String :=
  rows.map fun row => row.slug

/-- The worklist computed in `run`:
`[(slug, title) for slug, title in self.target_mkts if slug not in self.processed_slugs]`. -/
def events_to_search (target_mkts : List (String × String))
    (processed : List String) : List (String × String) :=
  target_mkts.filter fun p => !(processed.contains p.1)

/-- The output file contents after one `run` over `target_mkts` in which every
candidate's `search_event` succeeds: the pre-existing rows followed by, for
each worklist entry in order, the rows `search_event` appends.
`outcomes` gives the `SearchOutcome` returned by `google_search` for a
candidate. -/
def run_rows (target_mkts : List (String × String)) (existing : List OutputRow)
    (outcomes : String → String → SearchOutcome) (ts : String) : List OutputRow :=
  existing ++
    (events_to_search target_mkts (load_processed_slugs existing)).flatMap
      fun p => search_event_rows p.1 (outcomes p.1 p.2) ts

/-- A response whose handling raises (and is caught) or hits the quota
branch: a transport exception, a 429/403, another `raise_for_status` status,
or a body on which `.json()`/extraction raises. -/
def respFails (r : HttpResp) : Bool :=
  match r with
  | .exn => true
  | .resp status body =>
    status == 429 || status == 403 || Nat.ble 400 status || body.isNone

/-- Invariants of one caught-or-quota attempt: the request counter and trace
grow by one entry for the same page, while the accumulated items, the
metadata, and the pool size are untouched. -/
def failStepOk (p : Nat) (ls ls1 : LoopState) : Prop :=
  ls1.reqCount = ls.reqCount + 1 ∧
  ls1.trace = ls.trace ++ [⟨ls.scraper.current_key_index, p, p * 10 + 1⟩] ∧
  ls1.all_items = ls.all_items ∧
  ls1.search_terms = ls.search_terms ∧
  ls1.total_results = ls.total_results ∧
  ls1.scraper.key_usage.length = ls.scraper.key_usage.length

def tryResultState : TryResult → LoopState
  | .raised ls => ls
  | .quotaContinue ls => ls
  | .exitLoop ls _ => ls

/-- The state after the success branch of one attempt at `page`:
key use recorded, request logged, items appended, and — on page 0 only —
metadata taken from the response body. -/
def successState (p : Nat) (q : String) (data : PageData) (ls : LoopState) :
    LoopState :=
  ⟨record_key_use ls.scraper, ls.reqCount + 1,
    ls.trace ++ [⟨ls.scraper.current_key_index, p, p * 10 + 1⟩],
    ls.all_items ++ (data.items.getD []),
    if p = 0 then (data.request0.bind ReqInfo.searchTerms).getD q else ls.search_terms,
    if p = 0 then (data.request0.bind ReqInfo.totalResults).getD "0" else ls.total_results⟩

def tenItemsPage : PageData :=
  ⟨some ⟨some "terms", some "1234"⟩, some (List.replicate 10 emptyItem)⟩

def fourItemsPage : PageData :=
  ⟨some ⟨some "T", some "24"⟩, some (List.replicate 4 emptyItem)⟩

/-! ## Basic lemmas: totality of the attempt and page loops -/

theorem runAttemptsE_isOk (oracle : Nat → HttpResp) (query : String) (page : Nat) :
    ∀ (fuel : Nat) (ls : LoopState),
      ∃ v, runAttemptsE oracle query page fuel ls = .ok v := by
  intro fuel
  induction fuel with
  | zero => intro ls; exact ⟨(ls, .exhausted), rfl⟩
  | succ n ih =>
    intro ls
    simp only [runAttemptsE]
    cases tryBody (oracle ls.reqCount) page query ls with
    | raised ls1 => exact ih ls1
    | quotaContinue ls1 => exact ih ls1
    | exitLoop ls1 e => exact ⟨(ls1, e), rfl⟩

theorem runPagesE_isOk (oracle : Nat → HttpResp) (query : String) :
    ∀ (pages : List Nat) (ls : LoopState),
      ∃ v, runPagesE oracle query pages ls = .ok v := by
  intro pages
  induction pages with
  | nil => intro ls; exact ⟨ls, rfl⟩
  | cons p rest ih =>
    intro ls
    simp only [runPagesE]
    obtain ⟨⟨ls1, e⟩, hv⟩ :=
      runAttemptsE_isOk oracle query p ls.scraper.key_usage.length ls
    rw [hv]
    cases e with
    | exhausted => exact ih ls1
    | shortCircuit => exact ⟨ls1, rfl⟩
    | pageDone => exact ih ls1

/-- C9: whatever mix of transport failures, error statuses, or malformed
bodies the oracle produces, every exception is caught inside the page loop:
`google_search` always returns a result instead of propagating. -/
theorem google_search_never_raises (oracle : Nat → HttpResp)
    (st : ScraperState) (query : String) (max_results : Nat) :
    result_ok (google_search oracle st query max_results) = true := by
  obtain ⟨v, hv⟩ := runPagesE_isOk oracle query (List.range (max_results / 10))
    (init_loop_state st query)
  unfold google_search
  rw [hv]
  rfl

/-! ## Counterexamples: quota errors consume the per-page attempt budget, and
an exhausted page does not stop pagination -/

/-- C1 counterexample: with a pool of 2 keys and every response a quota error
(HTTP 429), a call with `max_results = 20` issues exactly two requests for
page 0 and then moves on to page 1 — after `len(pool)` consecutive quota
errors the page is abandoned, not retried again, because the quota branch's
`continue` consumes an iteration of `for _ in range(len(self.api_keys))`. -/
theorem quota_errors_abandon_page_cex :
    result_trace_pages
        (google_search (fun _ => HttpResp.resp 429 none) ⟨0, [0, 0]⟩ "q" 20) =
      [0, 0, 1, 1] ∧
    (result_trace_pages
        (google_search (fun _ => HttpResp.resp 429 none) ⟨0, [0, 0]⟩ "q" 20)).count 0 = 2 := by
  decide

/-- C2 counterexample: with a single key, `max_results = 20`, a transport
error on the one attempt at page 0, and a full 10-item success for every
later request, the call still issues a request for page 1 (trace pages
`[0, 1]`) and returns its 10 items — remaining pages are not skipped after
a page exhausts its attempts. -/
theorem transport_exhaustion_cex :
    result_trace_pages
        (google_search
          (fun j => if j = 0 then HttpResp.exn
            else HttpResp.resp 200 (some ⟨none, some (List.replicate 10 emptyItem)⟩))
          ⟨0, [0]⟩ "q" 20) = [0, 1] ∧
    (result_items
        (google_search
          (fun j => if j = 0 then HttpResp.exn
            else HttpResp.resp 200 (some ⟨none, some (List.replicate 10 emptyItem)⟩))
          ⟨0, [0]⟩ "q" 20)).length = 10 := by
  decide

/-! ## Rows written by `search_event` -/

theorem item_rows_length (slug s t ts : String) :
    ∀ (items : List Item) (idx : Nat),
      (item_rows slug s t ts idx items).length = items.length := by
  intro items
  induction items with
  | nil => intro idx; rfl
  | cons item rest ih =>
    intro idx
    simp only [item_rows, List.length_cons, ih]

theorem item_rows_getD (slug s t ts : String) :
    ∀ (items : List Item) (idx i : Nat), i < items.length →
      (item_rows slug s t ts idx items).getD i fallbackRow =
        ⟨slug, s, t, (items.getD i emptyItem).title.getD "",
          (items.getD i emptyItem).link.getD "",
          (items.getD i emptyItem).snippet.getD "", some (idx + i + 1), ts⟩ := by
  intro items
  induction items with
  | nil => intro idx i h; exact absurd h (Nat.not_lt_zero i)
  | cons item rest ih =>
    intro idx i h
    cases i with
    | zero => rfl
    | succ j =>
      have hj : j < rest.length := Nat.lt_of_succ_lt_succ h
      simp only [item_rows, List.getD_cons_succ]
      rw [ih (idx + 1) j hj]
      have harith : idx + 1 + j + 1 = idx + (j + 1) + 1 := by omega
      rw [harith]

theorem item_rows_slug (slug s t ts : String) :
    ∀ (items : List Item) (idx : Nat) (row : OutputRow),
      row ∈ item_rows slug s t ts idx items → row.slug = slug := by
  intro items
  induction items with
  | nil => intro idx row h; simp only [item_rows, List.not_mem_nil] at h
  | cons item rest ih =>
    intro idx row h
    simp only [item_rows, List.mem_cons] at h
    cases h with
    | inl he => rw [he]
    | inr hm => exact ih (idx + 1) row hm

theorem search_event_rows_ne_nil (slug : String) (o : SearchOutcome) (ts : String) :
    search_event_rows slug o ts ≠ [] := by
  unfold search_event_rows
  by_cases h : o.items = []
  · rw [if_pos h]; exact List.cons_ne_nil _ _
  · rw [if_neg h]
    intro hnil
    have := item_rows_length slug o.searchTerms o.totalResults ts o.items 0
    rw [hnil] at this
    exact h (List.eq_nil_of_length_eq_zero this.symm)

theorem search_event_rows_slug (slug : String) (o : SearchOutcome) (ts : String) :
    ∀ row ∈ search_event_rows slug o ts, row.slug = slug := by
  intro row h
  unfold search_event_rows at h
  by_cases ho : o.items = []
  · rw [if_pos ho] at h
    simp only [List.mem_singleton] at h
    rw [h]
  · rw [if_neg ho] at h
    exact item_rows_slug slug o.searchTerms o.totalResults ts o.items 0 row h

/-- C7: for an empty item list `search_event` writes exactly one row with the
candidate's slug, the echoed metadata, empty title/link/snippet and an empty
rank; for a non-empty list it writes one row per item, the i-th row carrying
rank `i + 1`. -/
theorem search_event_rows_spec (slug s t ts : String) (items : List Item) :
    search_event_rows slug ⟨s, t, []⟩ ts = [⟨slug, s, t, "", "", "", none, ts⟩] ∧
    (items ≠ [] →
      (search_event_rows slug ⟨s, t, items⟩ ts).length = items.length ∧
      ∀ i, i < items.length →
        (search_event_rows slug ⟨s, t, items⟩ ts).getD i fallbackRow =
          ⟨slug, s, t, (items.getD i emptyItem).title.getD "",
            (items.getD i emptyItem).link.getD "",
            (items.getD i emptyItem).snippet.getD "", some (i + 1), ts⟩) := by
  constructor
  · rfl
  · intro hne
    have hrows : search_event_rows slug ⟨s, t, items⟩ ts = item_rows slug s t ts 0 items := by
      unfold search_event_rows
      exact if_neg hne
    constructor
    · rw [hrows]; exact item_rows_length slug s t ts items 0
    · intro i hi
      rw [hrows]
      have h := item_rows_getD slug s t ts items 0 i hi
      simpa using h

theorem search_event_rows_spec_witness :
    search_event_rows "e" ⟨"q", "5", []⟩ "ts" = [⟨"e", "q", "5", "", "", "", none, "ts"⟩] ∧
    ([(⟨some "a", none, none⟩ : Item)] ≠ []) ∧
    (search_event_rows "e" ⟨"q", "5", [⟨some "a", none, none⟩]⟩ "ts").length = 1 ∧
    (search_event_rows "e" ⟨"q", "5", [⟨some "a", none, none⟩]⟩ "ts").getD 0 fallbackRow =
      ⟨"e", "q", "5", "a", "", "", some 1, "ts"⟩ := by
  have h := search_event_rows_spec "e" "q" "5" "ts" [⟨some "a", none, none⟩]
  have h2 := h.2 (by decide)
  exact ⟨h.1, by decide, h2.1, by simpa using h2.2 0 (by decide)⟩

/-! ## Resume idempotence -/

theorem events_to_search_nil_processed (target_mkts : List (String × String)) :
    events_to_search target_mkts [] = target_mkts := by
  unfold events_to_search
  rw [List.filter_eq_self]
  intro p hp
  simp only [List.contains_nil, Bool.not_false]

/-- C4: a second run over the same candidate list and output location, after a
first run (from an empty output) in which every candidate succeeded, has an
empty worklist: every slug already appears in the output rows. -/
theorem resume_idempotent (target_mkts : List (String × String))
    (outcomes : String → String → SearchOutcome) (ts : String) :
    events_to_search target_mkts
        (load_processed_slugs (run_rows target_mkts [] outcomes ts)) = [] := by
  unfold run_rows
  rw [List.nil_append]
  rw [show load_processed_slugs ([] : List OutputRow) = [] from rfl]
  rw [events_to_search_nil_processed]
  unfold events_to_search
  rw [List.filter_eq_nil_iff]
  intro p hp
  have hmem : p.1 ∈ load_processed_slugs
      (target_mkts.flatMap fun q => search_event_rows q.1 (outcomes q.1 q.2) ts) := by
    unfold load_processed_slugs
    rw [List.mem_map]
    obtain ⟨row, hrow⟩ := List.exists_mem_of_ne_nil _
      (search_event_rows_ne_nil p.1 (outcomes p.1 p.2) ts)
    refine ⟨row, ?_, ?_⟩
    · exact List.mem_flatMap_of_mem hp hrow
    · exact search_event_rows_slug p.1 (outcomes p.1 p.2) ts row hrow
  have hcont : (load_processed_slugs
      (target_mkts.flatMap fun q => search_event_rows q.1 (outcomes q.1 q.2) ts)).contains p.1 = true :=
    List.elem_iff.mpr hmem
  simp only [hcont, Bool.not_true]
  exact Bool.false_ne_true

/-! ## Attempt-level equations -/

theorem tryBody_exn (p : Nat) (q : String) (ls : LoopState) :
    tryBody .exn p q ls =
      .raised ⟨ls.scraper, ls.reqCount + 1,
        ls.trace ++ [⟨ls.scraper.current_key_index, p, p * 10 + 1⟩],
        ls.all_items, ls.search_terms, ls.total_results⟩ := rfl

theorem tryBody_quota (status : Nat) (body : Option PageData) (p : Nat)
    (q : String) (ls : LoopState) (hq : status = 429 ∨ status = 403) :
    tryBody (.resp status body) p q ls =
      .quotaContinue ⟨rotate_api_key ls.scraper, ls.reqCount + 1,
        ls.trace ++ [⟨ls.scraper.current_key_index, p, p * 10 + 1⟩],
        ls.all_items, ls.search_terms, ls.total_results⟩ := by
  simp only [tryBody]
  rw [if_pos hq]

theorem tryBody_raise_status (status : Nat) (body : Option PageData) (p : Nat)
    (q : String) (ls : LoopState) (hq : ¬(status = 429 ∨ status = 403))
    (h4 : 400 ≤ status) :
    tryBody (.resp status body) p q ls =
      .raised ⟨ls.scraper, ls.reqCount + 1,
        ls.trace ++ [⟨ls.scraper.current_key_index, p, p * 10 + 1⟩],
        ls.all_items, ls.search_terms, ls.total_results⟩ := by
  simp only [tryBody]
  rw [if_neg hq, if_pos h4]

theorem tryBody_badbody (status : Nat) (p : Nat) (q : String) (ls : LoopState)
    (hq : ¬(status = 429 ∨ status = 403)) (h4 : ¬(400 ≤ status)) :
    tryBody (.resp status none) p q ls =
      .raised ⟨record_key_use ls.scraper, ls.reqCount + 1,
        ls.trace ++ [⟨ls.scraper.current_key_index, p, p * 10 + 1⟩],
        ls.all_items, ls.search_terms, ls.total_results⟩ := by
  simp only [tryBody]
  rw [if_neg hq, if_neg h4]

theorem tryBody_success (status : Nat) (data : PageData) (p : Nat) (q : String)
    (ls : LoopState) (hq : ¬(status = 429 ∨ status = 403)) (h4 : ¬(400 ≤ status)) :
    tryBody (.resp status (some data)) p q ls =
      .exitLoop
        ⟨record_key_use ls.scraper, ls.reqCount + 1,
          ls.trace ++ [⟨ls.scraper.current_key_index, p, p * 10 + 1⟩],
          ls.all_items ++ (data.items.getD []),
          if p = 0 then (data.request0.bind ReqInfo.searchTerms).getD q else ls.search_terms,
          if p = 0 then (data.request0.bind ReqInfo.totalResults).getD "0" else ls.total_results⟩
        (if (data.items.getD []).length < 10 then .shortCircuit else .pageDone) := by
  simp only [tryBody]
  rw [if_neg hq, if_neg h4]
  by_cases hp : p = 0
  · rw [if_pos hp, if_pos hp, if_pos hp]
    by_cases hlen : (data.items.getD []).length < 10
    · rw [if_pos hlen, if_pos hlen]
    · rw [if_neg hlen, if_neg hlen]
  · rw [if_neg hp, if_neg hp, if_neg hp]
    by_cases hlen : (data.items.getD []).length < 10
    · rw [if_pos hlen, if_pos hlen]
    · rw [if_neg hlen, if_neg hlen]

theorem tryBody_fail_step (resp : HttpResp) (p : Nat) (q : String)
    (ls : LoopState) (h : respFails resp = true) :
    ∃ ls1, (tryBody resp p q ls = .raised ls1 ∨ tryBody resp p q ls = .quotaContinue ls1) ∧
      failStepOk p ls ls1 := by
  cases resp with
  | exn =>
    exact ⟨_, Or.inl (tryBody_exn p q ls), rfl, rfl, rfl, rfl, rfl, rfl⟩
  | resp status body =>
    simp only [respFails, Bool.or_eq_true, beq_iff_eq, Option.isNone_iff_eq_none] at h
    by_cases hq : status = 429 ∨ status = 403
    · refine ⟨_, Or.inr (tryBody_quota status body p q ls hq), rfl, rfl, rfl, rfl, rfl, ?_⟩
      rfl
    · by_cases h4 : 400 ≤ status
      · exact ⟨_, Or.inl (tryBody_raise_status status body p q ls hq h4),
          rfl, rfl, rfl, rfl, rfl, rfl⟩
      · have hb : body = none := by
          rcases h with ((h1 | h2) | h3) | hb
          · exact absurd (Or.inl h1) hq
          · exact absurd (Or.inr h2) hq
          · exact absurd (Nat.le_of_ble_eq_true h3) h4
          · exact hb
        subst hb
        refine ⟨_, Or.inl (tryBody_badbody status p q ls hq h4),
          rfl, rfl, rfl, rfl, rfl, ?_⟩
        simp only [record_key_use, List.length_set]

theorem runAttemptsE_fail_prefix (oracle : Nat → HttpResp) (q : String) (p : Nat) :
    ∀ (t fuel : Nat) (ls : LoopState), t ≤ fuel →
      (∀ j, ls.reqCount ≤ j → j < ls.reqCount + t → respFails (oracle j) = true) →
      ∃ ls2, runAttemptsE oracle q p fuel ls = runAttemptsE oracle q p (fuel - t) ls2 ∧
        ls2.reqCount = ls.reqCount + t ∧
        ls2.trace.map (fun rq => rq.page) =
          ls.trace.map (fun rq => rq.page) ++ List.replicate t p ∧
        ls2.all_items = ls.all_items ∧
        ls2.search_terms = ls.search_terms ∧
        ls2.total_results = ls.total_results ∧
        ls2.scraper.key_usage.length = ls.scraper.key_usage.length := by
  intro t
  induction t with
  | zero =>
    intro fuel ls _ _
    exact ⟨ls, by rw [Nat.sub_zero], rfl, by simp, rfl, rfl, rfl, rfl⟩
  | succ n ih =>
    intro fuel ls htle hfail
    obtain ⟨f1, rfl⟩ : ∃ f1, fuel = f1 + 1 := ⟨fuel - 1, by omega⟩
    have h0 : respFails (oracle ls.reqCount) = true :=
      hfail ls.reqCount (Nat.le_refl _) (by omega)
    obtain ⟨ls1, hstep, hrc, htr, hit, hst, htt, hku⟩ :=
      tryBody_fail_step (oracle ls.reqCount) p q ls h0
    have hrun : runAttemptsE oracle q p (f1 + 1) ls = runAttemptsE oracle q p f1 ls1 := by
      simp only [runAttemptsE]
      cases hstep with
      | inl h => rw [h]
      | inr h => rw [h]
    have hfail1 : ∀ j, ls1.reqCount ≤ j → j < ls1.reqCount + n →
        respFails (oracle j) = true := by
      intro j hj1 hj2
      rw [hrc] at hj1 hj2
      exact hfail j (by omega) (by omega)
    obtain ⟨ls2, hrun2, h2rc, h2tr, h2it, h2st, h2tt, h2ku⟩ :=
      ih f1 ls1 (by omega) hfail1
    refine ⟨ls2, ?_, ?_, ?_, ?_, ?_, ?_, ?_⟩
    · rw [hrun, hrun2, Nat.succ_sub_succ]
    · rw [h2rc, hrc]; omega
    · rw [h2tr, htr]
      simp [List.replicate_succ, List.append_assoc]
    · rw [h2it, hit]
    · rw [h2st, hst]
    · rw [h2tt, htt]
    · rw [h2ku, hku]

theorem runAttemptsE_fail_window (oracle : Nat → HttpResp) (q : String) (p : Nat)
    (fuel : Nat) (ls : LoopState)
    (hfail : ∀ j, ls.reqCount ≤ j → j < ls.reqCount + fuel → respFails (oracle j) = true) :
    ∃ ls2, runAttemptsE oracle q p fuel ls = .ok (ls2, .exhausted) ∧
      ls2.reqCount = ls.reqCount + fuel ∧
      ls2.trace.map (fun rq => rq.page) =
        ls.trace.map (fun rq => rq.page) ++ List.replicate fuel p ∧
      ls2.all_items = ls.all_items ∧
      ls2.search_terms = ls.search_terms ∧
      ls2.total_results = ls.total_results ∧
      ls2.scraper.key_usage.length = ls.scraper.key_usage.length := by
  obtain ⟨ls2, hrun, hrest⟩ :=
    runAttemptsE_fail_prefix oracle q p fuel fuel ls (Nat.le_refl fuel) hfail
  rw [Nat.sub_self] at hrun
  exact ⟨ls2, hrun, hrest⟩

/-! ## Metadata frame: pages other than page 0 never touch the metadata -/

theorem tryBody_frame_meta (resp : HttpResp) (p : Nat) (q : String)
    (ls : LoopState) (hp : p ≠ 0) :
    (tryResultState (tryBody resp p q ls)).search_terms = ls.search_terms ∧
    (tryResultState (tryBody resp p q ls)).total_results = ls.total_results := by
  cases resp with
  | exn => exact ⟨rfl, rfl⟩
  | resp status body =>
    by_cases hq : status = 429 ∨ status = 403
    · rw [tryBody_quota status body p q ls hq]
      exact ⟨rfl, rfl⟩
    · by_cases h4 : 400 ≤ status
      · rw [tryBody_raise_status status body p q ls hq h4]
        exact ⟨rfl, rfl⟩
      · cases body with
        | none =>
          rw [tryBody_badbody status p q ls hq h4]
          exact ⟨rfl, rfl⟩
        | some data =>
          rw [tryBody_success status data p q ls hq h4]
          simp [tryResultState, if_neg hp]

theorem runAttemptsE_frame_meta (oracle : Nat → HttpResp) (q : String) (p : Nat)
    (hp : p ≠ 0) :
    ∀ (fuel : Nat) (ls ls2 : LoopState) (e : InnerExit),
      runAttemptsE oracle q p fuel ls = .ok (ls2, e) →
      ls2.search_terms = ls.search_terms ∧ ls2.total_results = ls.total_results := by
  intro fuel
  induction fuel with
  | zero =>
    intro ls ls2 e h
    simp only [runAttemptsE] at h
    injection h with h1
    injection h1 with h2 h3
    rw [← h2]
    exact ⟨rfl, rfl⟩
  | succ n ih =>
    intro ls ls2 e h
    simp only [runAttemptsE] at h
    have hmeta := tryBody_frame_meta (oracle ls.reqCount) p q ls hp
    cases htb : tryBody (oracle ls.reqCount) p q ls with
    | raised ls1 =>
      rw [htb] at h hmeta
      simp only [tryResultState] at hmeta
      have h2 := ih ls1 ls2 e h
      exact ⟨h2.1.trans hmeta.1, h2.2.trans hmeta.2⟩
    | quotaContinue ls1 =>
      rw [htb] at h hmeta
      simp only [tryResultState] at hmeta
      have h2 := ih ls1 ls2 e h
      exact ⟨h2.1.trans hmeta.1, h2.2.trans hmeta.2⟩
    | exitLoop ls1 e1 =>
      rw [htb] at h hmeta
      simp only [tryResultState] at hmeta
      injection h with h1
      injection h1 with h2 h3
      rw [← h2]
      exact hmeta

theorem runPagesE_frame_meta (oracle : Nat → HttpResp) (q : String) :
    ∀ (pages : List Nat), (∀ x ∈ pages, x ≠ 0) →
      ∀ (ls ls2 : LoopState), runPagesE oracle q pages ls = .ok ls2 →
        ls2.search_terms = ls.search_terms ∧ ls2.total_results = ls.total_results := by
  intro pages
  induction pages with
  | nil =>
    intro _ ls ls2 h
    simp only [runPagesE] at h
    injection h with h1
    rw [← h1]
    exact ⟨rfl, rfl⟩
  | cons p rest ih =>
    intro hpz ls ls2 h
    have hp : p ≠ 0 := hpz p (List.mem_cons_self p rest)
    have hrest : ∀ x ∈ rest, x ≠ 0 := fun x hx => hpz x (List.mem_cons_of_mem p hx)
    simp only [runPagesE] at h
    obtain ⟨⟨ls1, e⟩, hv⟩ :=
      runAttemptsE_isOk oracle q p ls.scraper.key_usage.length ls
    rw [hv] at h
    have hmeta := runAttemptsE_frame_meta oracle q p hp
      ls.scraper.key_usage.length ls ls1 e hv
    cases e with
    | exhausted =>
      have h2 := ih hrest ls1 ls2 h
      exact ⟨h2.1.trans hmeta.1, h2.2.trans hmeta.2⟩
    | shortCircuit =>
      injection h with h1
      rw [← h1]
      exact hmeta
    | pageDone =>
      have h2 := ih hrest ls1 ls2 h
      exact ⟨h2.1.trans hmeta.1, h2.2.trans hmeta.2⟩

/-! ## Successful attempts and runs of successful pages -/

theorem runAttemptsE_success_step (oracle : Nat → HttpResp) (q : String)
    (p : Nat) (fuel : Nat) (ls : LoopState) (data : PageData)
    (hor : oracle ls.reqCount = .resp 200 (some data)) :
    runAttemptsE oracle q p (fuel + 1) ls =
      .ok (successState p q data ls,
        if (data.items.getD []).length < 10 then .shortCircuit else .pageDone) := by
  have hq : ¬((200 : Nat) = 429 ∨ (200 : Nat) = 403) := by decide
  have h4 : ¬((400 : Nat) ≤ 200) := by decide
  simp only [runAttemptsE, hor, tryBody_success 200 data p q ls hq h4]
  by_cases hlen : (data.items.getD []).length < 10
  · rw [if_pos hlen]
    rfl
  · rw [if_neg hlen]
    rfl

theorem successState_key_len (p : Nat) (q : String) (data : PageData)
    (ls : LoopState) :
    (successState p q data ls).scraper.key_usage.length =
      ls.scraper.key_usage.length := by
  simp [successState, record_key_use]

theorem successState_trace_pages (p : Nat) (q : String) (data : PageData)
    (ls : LoopState) :
    (successState p q data ls).trace.map (fun rq => rq.page) =
      ls.trace.map (fun rq => rq.page) ++ [p] := by
  simp [successState]

theorem runPagesE_success_full (oracle : Nat → HttpResp) (q : String)
    (g : Nat → PageData) :
    ∀ (b a : Nat) (ls : LoopState),
      1 ≤ ls.scraper.key_usage.length →
      (∀ j, ls.reqCount ≤ j → j < ls.reqCount + b → oracle j = .resp 200 (some (g j))) →
      (∀ j, ls.reqCount ≤ j → j < ls.reqCount + b → ((g j).items.getD []).length = 10) →
      ∃ ls2, runPagesE oracle q (List.range' a b) ls = .ok ls2 ∧
        ls2.reqCount = ls.reqCount + b ∧
        ls2.trace.map (fun rq => rq.page) =
          ls.trace.map (fun rq => rq.page) ++ List.range' a b ∧
        ls2.all_items = ls.all_items ++
          (List.range' ls.reqCount b).flatMap (fun j => (g j).items.getD []) ∧
        ls2.scraper.key_usage.length = ls.scraper.key_usage.length := by
  intro b
  induction b with
  | zero =>
    intro a ls h1 _ _
    exact ⟨ls, rfl, by omega, by simp, by simp, rfl⟩
  | succ n ih =>
    intro a ls h1 hor hfull
    obtain ⟨f1, hf⟩ : ∃ f1, ls.scraper.key_usage.length = f1 + 1 :=
      ⟨ls.scraper.key_usage.length - 1, by omega⟩
    have hstep := runAttemptsE_success_step oracle q a f1 ls (g ls.reqCount)
      (hor ls.reqCount (Nat.le_refl _) (by omega))
    have hlen10 : ((g ls.reqCount).items.getD []).length = 10 :=
      hfull ls.reqCount (Nat.le_refl _) (by omega)
    rw [hlen10, if_neg (by omega)] at hstep
    have hpage : runPagesE oracle q (List.range' a (n + 1)) ls =
        runPagesE oracle q (List.range' (a + 1) n)
          (successState a q (g ls.reqCount) ls) := by
      rw [List.range'_succ]
      simp only [runPagesE]
      rw [hf, hstep]
    have hS1 : 1 ≤ (successState a q (g ls.reqCount) ls).scraper.key_usage.length := by
      rw [successState_key_len]; exact h1
    have hSrc : (successState a q (g ls.reqCount) ls).reqCount = ls.reqCount + 1 := rfl
    have horS : ∀ j, (successState a q (g ls.reqCount) ls).reqCount ≤ j →
        j < (successState a q (g ls.reqCount) ls).reqCount + n →
        oracle j = .resp 200 (some (g j)) := by
      intro j hj1 hj2
      rw [hSrc] at hj1 hj2
      exact hor j (by omega) (by omega)
    have hfullS : ∀ j, (successState a q (g ls.reqCount) ls).reqCount ≤ j →
        j < (successState a q (g ls.reqCount) ls).reqCount + n →
        ((g j).items.getD []).length = 10 := by
      intro j hj1 hj2
      rw [hSrc] at hj1 hj2
      exact hfull j (by omega) (by omega)
    obtain ⟨ls2, hrun2, hrc2, htr2, hit2, hku2⟩ :=
      ih (a + 1) (successState a q (g ls.reqCount) ls) hS1 horS hfullS
    refine ⟨ls2, ?_, ?_, ?_, ?_, ?_⟩
    · rw [hpage]; exact hrun2
    · rw [hrc2, hSrc]; omega
    · rw [htr2, successState_trace_pages, List.range'_succ]
      simp [List.append_assoc]
    · rw [hit2, hSrc]
      have hSit : (successState a q (g ls.reqCount) ls).all_items =
          ls.all_items ++ ((g ls.reqCount).items.getD []) := rfl
      rw [hSit, List.range'_succ, List.flatMap_cons, List.append_assoc]
    · rw [hku2, successState_key_len]

theorem runPagesE_success_short (oracle : Nat → HttpResp) (q : String)
    (g : Nat → PageData) :
    ∀ (s b a : Nat) (ls : LoopState), s < b →
      1 ≤ ls.scraper.key_usage.length →
      (∀ j, ls.reqCount ≤ j → j ≤ ls.reqCount + s → oracle j = .resp 200 (some (g j))) →
      (∀ j, ls.reqCount ≤ j → j < ls.reqCount + s → ((g j).items.getD []).length = 10) →
      ((g (ls.reqCount + s)).items.getD []).length < 10 →
      ∃ ls2, runPagesE oracle q (List.range' a b) ls = .ok ls2 ∧
        ls2.reqCount = ls.reqCount + s + 1 ∧
        ls2.trace.map (fun rq => rq.page) =
          ls.trace.map (fun rq => rq.page) ++ List.range' a (s + 1) ∧
        ls2.all_items = ls.all_items ++
          (List.range' ls.reqCount (s + 1)).flatMap (fun j => (g j).items.getD []) := by
  intro s
  induction s with
  | zero =>
    intro b a ls hsb h1 hor hfull hshort
    obtain ⟨b1, rfl⟩ : ∃ b1, b = b1 + 1 := ⟨b - 1, by omega⟩
    obtain ⟨f1, hf⟩ : ∃ f1, ls.scraper.key_usage.length = f1 + 1 :=
      ⟨ls.scraper.key_usage.length - 1, by omega⟩
    have hstep := runAttemptsE_success_step oracle q a f1 ls (g ls.reqCount)
      (hor ls.reqCount (Nat.le_refl _) (by omega))
    rw [if_pos (by simpa using hshort)] at hstep
    refine ⟨successState a q (g ls.reqCount) ls, ?_, ?_, ?_, ?_⟩
    · rw [List.range'_succ]
      simp only [runPagesE]
      rw [hf, hstep]
    · simp [successState]
    · rw [successState_trace_pages]
      simp [List.range'_succ]
    · simp [successState, List.range'_succ]
  | succ n ih =>
    intro b a ls hsb h1 hor hfull hshort
    obtain ⟨b1, rfl⟩ : ∃ b1, b = b1 + 1 := ⟨b - 1, by omega⟩
    obtain ⟨f1, hf⟩ : ∃ f1, ls.scraper.key_usage.length = f1 + 1 :=
      ⟨ls.scraper.key_usage.length - 1, by omega⟩
    have hstep := runAttemptsE_success_step oracle q a f1 ls (g ls.reqCount)
      (hor ls.reqCount (Nat.le_refl _) (by omega))
    have hlen10 : ((g ls.reqCount).items.getD []).length = 10 :=
      hfull ls.reqCount (Nat.le_refl _) (by omega)
    rw [hlen10, if_neg (by omega)] at hstep
    have hpage : runPagesE oracle q (List.range' a (b1 + 1)) ls =
        runPagesE oracle q (List.range' (a + 1) b1)
          (successState a q (g ls.reqCount) ls) := by
      rw [List.range'_succ]
      simp only [runPagesE]
      rw [hf, hstep]
    have hSrc : (successState a q (g ls.reqCount) ls).reqCount = ls.reqCount + 1 := rfl
    have hS1 : 1 ≤ (successState a q (g ls.reqCount) ls).scraper.key_usage.length := by
      rw [successState_key_len]; exact h1
    have horS : ∀ j, (successState a q (g ls.reqCount) ls).reqCount ≤ j →
        j ≤ (successState a q (g ls.reqCount) ls).reqCount + n →
        oracle j = .resp 200 (some (g j)) := by
      intro j hj1 hj2
      rw [hSrc] at hj1 hj2
      exact hor j (by omega) (by omega)
    have hfullS : ∀ j, (successState a q (g ls.reqCount) ls).reqCount ≤ j →
        j < (successState a q (g ls.reqCount) ls).reqCount + n →
        ((g j).items.getD []).length = 10 := by
      intro j hj1 hj2
      rw [hSrc] at hj1 hj2
      exact hfull j (by omega) (by omega)
    have hshortS :
        ((g ((successState a q (g ls.reqCount) ls).reqCount + n)).items.getD []).length < 10 := by
      rw [hSrc, show ls.reqCount + 1 + n = ls.reqCount + (n + 1) from by omega]
      exact hshort
    obtain ⟨ls2, hrun2, hrc2, htr2, hit2⟩ :=
      ih b1 (a + 1) (successState a q (g ls.reqCount) ls) (by omega) hS1 horS hfullS hshortS
    refine ⟨ls2, ?_, ?_, ?_, ?_⟩
    · rw [hpage]; exact hrun2
    · rw [hrc2, hSrc]; omega
    · rw [htr2, successState_trace_pages,
        show List.range' a (n + 1 + 1) = a :: List.range' (a + 1) (n + 1) from
          List.range'_succ a (n + 1) 1]
      simp [List.append_assoc]
    · rw [hit2, hSrc]
      have hSit : (successState a q (g ls.reqCount) ls).all_items =
          ls.all_items ++ ((g ls.reqCount).items.getD []) := rfl
      rw [hSit,
        show List.range' ls.reqCount (n + 1 + 1) =
            ls.reqCount :: List.range' (ls.reqCount + 1) (n + 1) from
          List.range'_succ ls.reqCount (n + 1) 1,
        List.flatMap_cons, List.append_assoc]

/-! ## Runs in which every response is a quota error -/

theorem runAttemptsE_all_quota (oracle : Nat → HttpResp) (q : String) (p : Nat)
    (hquota : ∀ j, oracle j = .resp 429 none) :
    ∀ (fuel : Nat) (ls : LoopState),
      ls.scraper.current_key_index < ls.scraper.key_usage.length →
      ∃ ls2, runAttemptsE oracle q p fuel ls = .ok (ls2, .exhausted) ∧
        ls2.reqCount = ls.reqCount + fuel ∧
        ls2.trace.map (fun rq => rq.page) =
          ls.trace.map (fun rq => rq.page) ++ List.replicate fuel p ∧
        ls2.all_items = ls.all_items ∧
        ls2.search_terms = ls.search_terms ∧
        ls2.total_results = ls.total_results ∧
        ls2.scraper.key_usage = ls.scraper.key_usage ∧
        ls2.scraper.current_key_index =
          (ls.scraper.current_key_index + fuel) % ls.scraper.key_usage.length := by
  intro fuel
  induction fuel with
  | zero =>
    intro ls hidx
    refine ⟨ls, rfl, rfl, by simp, rfl, rfl, rfl, rfl, ?_⟩
    rw [Nat.add_zero, Nat.mod_eq_of_lt hidx]
  | succ n ih =>
    intro ls hidx
    have hq : (429 : Nat) = 429 ∨ (429 : Nat) = 403 := Or.inl rfl
    have hlen0 : 0 < ls.scraper.key_usage.length :=
      Nat.lt_of_le_of_lt (Nat.zero_le _) hidx
    have hrun : runAttemptsE oracle q p (n + 1) ls =
        runAttemptsE oracle q p n
          ⟨rotate_api_key ls.scraper, ls.reqCount + 1,
            ls.trace ++ [⟨ls.scraper.current_key_index, p, p * 10 + 1⟩],
            ls.all_items, ls.search_terms, ls.total_results⟩ := by
      simp only [runAttemptsE, hquota ls.reqCount, tryBody_quota 429 none p q ls hq]
    have hidx1 : (⟨rotate_api_key ls.scraper, ls.reqCount + 1,
        ls.trace ++ [⟨ls.scraper.current_key_index, p, p * 10 + 1⟩],
        ls.all_items, ls.search_terms, ls.total_results⟩ :
          LoopState).scraper.current_key_index <
        (⟨rotate_api_key ls.scraper, ls.reqCount + 1,
          ls.trace ++ [⟨ls.scraper.current_key_index, p, p * 10 + 1⟩],
          ls.all_items, ls.search_terms, ls.total_results⟩ :
            LoopState).scraper.key_usage.length := by
      simp only [rotate_api_key]
      exact Nat.mod_lt _ hlen0
    obtain ⟨ls2, hrun2, hrc2, htr2, hit2, hst2, htt2, hku2, hci2⟩ := ih _ hidx1
    refine ⟨ls2, ?_, ?_, ?_, hit2, hst2, htt2, hku2, ?_⟩
    · rw [hrun]; exact hrun2
    · rw [hrc2]
      show ls.reqCount + 1 + n = ls.reqCount + (n + 1)
      omega
    · rw [htr2]
      simp [List.replicate_succ, List.append_assoc]
    · rw [hci2]
      show ((ls.scraper.current_key_index + 1) % ls.scraper.key_usage.length + n) %
          ls.scraper.key_usage.length =
        (ls.scraper.current_key_index + (n + 1)) % ls.scraper.key_usage.length
      rw [Nat.mod_add_mod]
      congr 1
      omega

theorem runPagesE_all_quota (oracle : Nat → HttpResp) (q : String)
    (hquota : ∀ j, oracle j = .resp 429 none) :
    ∀ (pages : List Nat) (ls : LoopState),
      ls.scraper.current_key_index < ls.scraper.key_usage.length →
      ∃ ls2, runPagesE oracle q pages ls = .ok ls2 ∧
        ls2.trace.map (fun rq => rq.page) =
          ls.trace.map (fun rq => rq.page) ++
            pages.flatMap (fun p => List.replicate ls.scraper.key_usage.length p) ∧
        ls2.all_items = ls.all_items ∧
        ls2.search_terms = ls.search_terms ∧
        ls2.total_results = ls.total_results ∧
        ls2.scraper.key_usage = ls.scraper.key_usage ∧
        ls2.scraper.current_key_index = ls.scraper.current_key_index := by
  intro pages
  induction pages with
  | nil =>
    intro ls hidx
    exact ⟨ls, rfl, by simp, rfl, rfl, rfl, rfl, rfl⟩
  | cons p rest ih =>
    intro ls hidx
    obtain ⟨ls1, hrun1, hrc1, htr1, hit1, hst1, htt1, hku1, hci1⟩ :=
      runAttemptsE_all_quota oracle q p hquota ls.scraper.key_usage.length ls hidx
    have hcur : ls1.scraper.current_key_index = ls.scraper.current_key_index := by
      rw [hci1, Nat.add_mod_right, Nat.mod_eq_of_lt hidx]
    have hidx1 : ls1.scraper.current_key_index < ls1.scraper.key_usage.length := by
      rw [hcur, hku1]
      exact hidx
    obtain ⟨ls2, hrun2, htr2, hit2, hst2, htt2, hku2, hci2⟩ := ih ls1 hidx1
    refine ⟨ls2, ?_, ?_, ?_, ?_, ?_, ?_, ?_⟩
    · simp only [runPagesE]
      rw [hrun1]
      exact hrun2
    · rw [htr2, htr1, hku1]
      simp [List.append_assoc]
    · rw [hit2, hit1]
    · rw [hst2, hst1]
    · rw [htt2, htt1]
    · rw [hku2, hku1]
    · rw [hci2, hcur]

/-! ## Claim theorems about `google_search` -/

/-- C1 (amended): quota errors consume the same per-page attempt budget of
`len(credentialPool)` as transport errors.  Under consecutive quota errors
the credential cursor does wrap back to the original credential after
`len(pool)` rotations, but the page is then abandoned, not retried again:
every page receives exactly `len(pool)` requests and the loop moves on, so
an all-quota run requests each of the `maxResults / 10` pages exactly
`len(pool)` times and collects no items. -/
theorem quota_rotation_wraps_but_page_abandoned (oracle : Nat → HttpResp)
    (st : ScraperState) (q : String) (m : Nat)
    (hidx : st.current_key_index < st.key_usage.length)
    (hquota : ∀ j, oracle j = HttpResp.resp 429 none) :
    result_trace_pages (google_search oracle st q m) =
      (List.range (m / 10)).flatMap (fun p => List.replicate st.key_usage.length p) ∧
    result_key_index (google_search oracle st q m) = st.current_key_index ∧
    result_items (google_search oracle st q m) = [] := by
  obtain ⟨ls2, hrun, htr, hit, hst, htt, hku, hci⟩ :=
    runPagesE_all_quota oracle q hquota (List.range (m / 10))
      (init_loop_state st q) hidx
  unfold google_search
  rw [hrun]
  refine ⟨?_, ?_, ?_⟩
  · show ls2.trace.map (fun rq => rq.page) = _
    rw [htr]
    simp [init_loop_state]
  · show ls2.scraper.current_key_index = _
    rw [hci]
    rfl
  · show ls2.all_items = _
    rw [hit]
    rfl

theorem quota_rotation_wraps_but_page_abandoned_witness :
    0 < ([0, 0] : List Nat).length ∧
    result_trace_pages
        (google_search (fun _ => HttpResp.resp 429 none) ⟨0, [0, 0]⟩ "q" 20) =
      (List.range (20 / 10)).flatMap (fun p => List.replicate 2 p) ∧
    result_key_index
        (google_search (fun _ => HttpResp.resp 429 none) ⟨0, [0, 0]⟩ "q" 20) = 0 ∧
    result_items
        (google_search (fun _ => HttpResp.resp 429 none) ⟨0, [0, 0]⟩ "q" 20) = [] := by
  have h := quota_rotation_wraps_but_page_abandoned (fun _ => HttpResp.resp 429 none)
    ⟨0, [0, 0]⟩ "q" 20 (by decide) (fun j => rfl)
  exact ⟨by decide, h.1, h.2.1, h.2.2⟩

/-- C2 (amended): when a page exhausts its `len(credentialPool)` attempts,
only that page is given up; the loop still issues requests for every
remaining page, and `search` returns the items accumulated from the pages
that succeeded.  Concretely, if every attempt at page 0 is a transport
error and all later requests succeed with full pages, the trace shows
`len(pool)` requests for page 0 followed by one request for each remaining
page, and the result holds the later pages' items. -/
theorem exhausted_page_does_not_skip_rest (oracle : Nat → HttpResp)
    (st : ScraperState) (q : String) (m : Nat) (g : Nat → PageData)
    (hpool : 1 ≤ st.key_usage.length)
    (h10 : 10 ≤ m)
    (hfail : ∀ j, j < st.key_usage.length → oracle j = HttpResp.exn)
    (hsucc : ∀ j, st.key_usage.length ≤ j → oracle j = .resp 200 (some (g j)))
    (hfull : ∀ j, ((g j).items.getD []).length = 10) :
    result_trace_pages (google_search oracle st q m) =
      List.replicate st.key_usage.length 0 ++ List.range' 1 (m / 10 - 1) ∧
    result_items (google_search oracle st q m) =
      (List.range' st.key_usage.length (m / 10 - 1)).flatMap
        (fun j => (g j).items.getD []) := by
  have hm1 : 1 ≤ m / 10 := (Nat.le_div_iff_mul_le (by omega)).mpr (by omega)
  have h0rc : (init_loop_state st q).reqCount = 0 := rfl
  have h0len : (init_loop_state st q).scraper.key_usage.length = st.key_usage.length := rfl
  obtain ⟨k, hk⟩ : ∃ k, m / 10 = k + 1 := ⟨m / 10 - 1, by omega⟩
  obtain ⟨ls1, hrun1, hrc1, htr1, hit1, hst1, htt1, hku1⟩ :=
    runAttemptsE_fail_window oracle q 0
      (init_loop_state st q).scraper.key_usage.length (init_loop_state st q)
      (by
        intro j hj1 hj2
        rw [h0rc, h0len] at hj2
        rw [hfail j (by omega)]
        rfl)
  have hrc1n : ls1.reqCount = st.key_usage.length := by
    rw [hrc1, h0rc, h0len]
    omega
  have hku1n : ls1.scraper.key_usage.length = st.key_usage.length := by
    rw [hku1, h0len]
  have hpg : runPagesE oracle q (0 :: List.range' 1 k) (init_loop_state st q) =
      runPagesE oracle q (List.range' 1 k) ls1 := by
    simp only [runPagesE]
    rw [hrun1]
  obtain ⟨ls2, hrun2, hrc2, htr2, hit2, hku2⟩ :=
    runPagesE_success_full oracle q g k 1 ls1
      (by rw [hku1n]; exact hpool)
      (by
        intro j hj1 hj2
        rw [hrc1n] at hj1
        exact hsucc j hj1)
      (by intro j _ _; exact hfull j)
  have hgs : google_search oracle st q m = .ok ls2 := by
    unfold google_search
    rw [hk, List.range_eq_range',
      show List.range' 0 (k + 1) = 0 :: List.range' 1 k from List.range'_succ 0 k 1,
      hpg]
    exact hrun2
  constructor
  · rw [hgs]
    show ls2.trace.map (fun rq => rq.page) = _
    rw [htr2, htr1, hk]
    have htr0 : (init_loop_state st q).trace.map (fun rq => rq.page) = [] := rfl
    rw [htr0, h0len, List.nil_append, Nat.add_sub_cancel]
  · rw [hgs]
    show ls2.all_items = _
    rw [hit2, hit1, hrc1n, hk]
    have hit0 : (init_loop_state st q).all_items = [] := rfl
    rw [hit0, List.nil_append, Nat.add_sub_cancel]

theorem exhausted_page_does_not_skip_rest_witness :
    1 ≤ ([0] : List Nat).length ∧ (10 : Nat) ≤ 20 ∧
    result_trace_pages
        (google_search
          (fun j => if j = 0 then HttpResp.exn
            else HttpResp.resp 200 (some ⟨some ⟨some "terms", some "55"⟩,
              some (List.replicate 10 emptyItem)⟩))
          ⟨0, [0]⟩ "q" 20) =
      List.replicate 1 0 ++ List.range' 1 (20 / 10 - 1) ∧
    result_items
        (google_search
          (fun j => if j = 0 then HttpResp.exn
            else HttpResp.resp 200 (some ⟨some ⟨some "terms", some "55"⟩,
              some (List.replicate 10 emptyItem)⟩))
          ⟨0, [0]⟩ "q" 20) =
      (List.range' 1 (20 / 10 - 1)).flatMap
        (fun _ => List.replicate 10 emptyItem) := by
  have h := exhausted_page_does_not_skip_rest
    (fun j => if j = 0 then HttpResp.exn
      else HttpResp.resp 200 (some ⟨some ⟨some "terms", some "55"⟩,
        some (List.replicate 10 emptyItem)⟩))
    ⟨0, [0]⟩ "q" 20
    (fun _ => ⟨some ⟨some "terms", some "55"⟩, some (List.replicate 10 emptyItem)⟩)
    (by decide) (by decide)
    (by
      intro j hj
      have hj1 : j < 1 := hj
      have hj0 : j = 0 := by omega
      subst hj0
      rfl)
    (by
      intro j hj
      have hj1 : 1 ≤ j := hj
      have hj0 : j ≠ 0 := by omega
      simp [hj0])
    (fun j => rfl)
  refine ⟨by decide, by decide, h.1, ?_⟩
  rw [h.2]
  rfl

theorem search_event_rows_rank (slug ts : String) (o : SearchOutcome) (i : Nat)
    (hi : i < o.items.length) :
    ((search_event_rows slug o ts).getD i fallbackRow).rank = some (i + 1) := by
  have hne : o.items ≠ [] := by
    intro h
    rw [h] at hi
    exact absurd hi (by simp)
  unfold search_event_rows
  rw [if_neg hne, item_rows_getD slug o.searchTerms o.totalResults ts o.items 0 i hi]
  simp

/-- C3: if page k's successful response carries fewer than 10 items while all
earlier pages were full, the call requests exactly pages `0..k` (no request
for any later page), returns exactly the items accumulated through page k in
order, and the rows persisted for the outcome carry ranks `1..`. -/
theorem short_page_stops_pagination (f : Nat → PageData) (st : ScraperState)
    (q : String) (m k : Nat)
    (hpool : 1 ≤ st.key_usage.length)
    (hk : k < m / 10)
    (hfull : ∀ j, j < k → ((f j).items.getD []).length = 10)
    (hshort : ((f k).items.getD []).length < 10) :
    result_trace_pages
        (google_search (fun j => HttpResp.resp 200 (some (f j))) st q m) =
      List.range (k + 1) ∧
    result_items (google_search (fun j => HttpResp.resp 200 (some (f j))) st q m) =
      (List.range (k + 1)).flatMap (fun j => (f j).items.getD []) ∧
    ∀ slug ts i,
      i < (result_items
        (google_search (fun j => HttpResp.resp 200 (some (f j))) st q m)).length →
      ((search_event_rows slug
          (outcome_of (google_search (fun j => HttpResp.resp 200 (some (f j))) st q m))
          ts).getD i fallbackRow).rank = some (i + 1) := by
  have h0rc : (init_loop_state st q).reqCount = 0 := rfl
  obtain ⟨ls2, hrun, hrc, htr, hit⟩ :=
    runPagesE_success_short (fun j => HttpResp.resp 200 (some (f j))) q f
      k (m / 10) 0 (init_loop_state st q) hk hpool
      (fun j _ _ => rfl)
      (by
        intro j hj1 hj2
        rw [h0rc] at hj2
        exact hfull j (by omega))
      (by
        rw [h0rc]
        simpa using hshort)
  have hgs : google_search (fun j => HttpResp.resp 200 (some (f j))) st q m =
      .ok ls2 := by
    unfold google_search
    rw [List.range_eq_range']
    exact hrun
  have htrace : result_trace_pages (Except.ok ls2 : Except Unit LoopState) =
      List.range (k + 1) := by
    show ls2.trace.map (fun rq => rq.page) = _
    rw [htr, List.range_eq_range']
    rfl
  have hitems : result_items (Except.ok ls2 : Except Unit LoopState) =
      (List.range (k + 1)).flatMap (fun j => (f j).items.getD []) := by
    show ls2.all_items = _
    rw [hit, h0rc, List.range_eq_range']
    rfl
  refine ⟨by rw [hgs]; exact htrace, by rw [hgs]; exact hitems, ?_⟩
  intro slug ts i hi
  rw [hgs] at hi ⊢
  exact search_event_rows_rank slug ts (outcome_of (Except.ok ls2)) i hi

theorem short_page_stops_pagination_witness :
    1 ≤ ([0] : List Nat).length ∧ 2 < 30 / 10 ∧
    result_trace_pages
        (google_search
          (fun j => HttpResp.resp 200 (some (if j < 2 then tenItemsPage else fourItemsPage)))
          ⟨0, [0]⟩ "q" 30) = List.range 3 ∧
    (result_items
        (google_search
          (fun j => HttpResp.resp 200 (some (if j < 2 then tenItemsPage else fourItemsPage)))
          ⟨0, [0]⟩ "q" 30)).length = 24 ∧
    ((search_event_rows "e"
        (outcome_of
          (google_search
            (fun j => HttpResp.resp 200 (some (if j < 2 then tenItemsPage else fourItemsPage)))
            ⟨0, [0]⟩ "q" 30))
        "ts").getD 23 fallbackRow).rank = some 24 := by
  have h := short_page_stops_pagination
    (fun j => if j < 2 then tenItemsPage else fourItemsPage) ⟨0, [0]⟩ "q" 30 2
    (by decide) (by decide)
    (by
      intro j hj
      interval_cases j <;> decide)
    (by decide)
  refine ⟨by decide, by decide, h.1, ?_, ?_⟩
  · rw [h.2.1]
    decide
  · exact h.2.2 "e" "ts" 23 (by decide)

theorem flatMap_items_length (g : Nat → PageData)
    (h : ∀ j, ((g j).items.getD []).length = 10) :
    ∀ (b rc : Nat),
      ((List.range' rc b).flatMap (fun j => (g j).items.getD [])).length = 10 * b := by
  intro b
  induction b with
  | zero => intro rc; rfl
  | succ n ih =>
    intro rc
    rw [List.range'_succ, List.flatMap_cons, List.length_append, h rc, ih (rc + 1)]
    omega

/-- C5: the number of pages requested is `maxResults / 10` (integer
division): when every response is a full 10-item success, a call with any
positive `maxResults` requests exactly the pages `0 .. maxResults / 10 - 1`
once each and collects `10 * (maxResults / 10)` items — a non-multiple of 10
silently truncates to the floor page count, with no partial extra page and
no error. -/
theorem pages_floor_division (f : Nat → PageData) (st : ScraperState)
    (q : String) (m : Nat)
    (_hm : 0 < m)
    (hpool : 1 ≤ st.key_usage.length)
    (hfull : ∀ j, ((f j).items.getD []).length = 10) :
    result_trace_pages
        (google_search (fun j => HttpResp.resp 200 (some (f j))) st q m) =
      List.range (m / 10) ∧
    (result_items
        (google_search (fun j => HttpResp.resp 200 (some (f j))) st q m)).length =
      10 * (m / 10) := by
  have h0rc : (init_loop_state st q).reqCount = 0 := rfl
  obtain ⟨ls2, hrun, hrc, htr, hit, hku⟩ :=
    runPagesE_success_full (fun j => HttpResp.resp 200 (some (f j))) q f
      (m / 10) 0 (init_loop_state st q) hpool
      (fun j _ _ => rfl)
      (fun j _ _ => hfull j)
  have hgs : google_search (fun j => HttpResp.resp 200 (some (f j))) st q m =
      .ok ls2 := by
    unfold google_search
    rw [List.range_eq_range']
    exact hrun
  constructor
  · rw [hgs]
    show ls2.trace.map (fun rq => rq.page) = _
    rw [htr, List.range_eq_range']
    rfl
  · rw [hgs]
    show ls2.all_items.length = _
    rw [hit]
    have hit0 : (init_loop_state st q).all_items = [] := rfl
    rw [hit0, List.nil_append, h0rc, flatMap_items_length f hfull]

theorem pages_floor_division_witness :
    0 < 25 ∧ 1 ≤ ([0] : List Nat).length ∧
    result_trace_pages
        (google_search (fun _ => HttpResp.resp 200 (some tenItemsPage))
          ⟨0, [0]⟩ "q" 25) = List.range (25 / 10) ∧
    (result_items
        (google_search (fun _ => HttpResp.resp 200 (some tenItemsPage))
          ⟨0, [0]⟩ "q" 25)).length = 10 * (25 / 10) := by
  have h := pages_floor_division (fun _ => tenItemsPage) ⟨0, [0]⟩ "q" 25
    (by decide) (by decide) (fun j => rfl)
  exact ⟨by decide, by decide, h.1, h.2⟩

/-- C8: pagination is order-preserving — when every page request succeeds,
the final item list is the concatenation of the pages' item sequences in
page-index order, and the row persisted at position i carries rank `i + 1`,
i.e. the item's 1-based position in that concatenation. -/
theorem pagination_order_preserving (f : Nat → PageData) (st : ScraperState)
    (q : String) (m : Nat)
    (hpool : 1 ≤ st.key_usage.length)
    (hfull : ∀ j, ((f j).items.getD []).length = 10) :
    result_items (google_search (fun j => HttpResp.resp 200 (some (f j))) st q m) =
      (List.range (m / 10)).flatMap (fun j => (f j).items.getD []) ∧
    ∀ slug ts i,
      i < (result_items
        (google_search (fun j => HttpResp.resp 200 (some (f j))) st q m)).length →
      ((search_event_rows slug
          (outcome_of (google_search (fun j => HttpResp.resp 200 (some (f j))) st q m))
          ts).getD i fallbackRow).rank = some (i + 1) := by
  have h0rc : (init_loop_state st q).reqCount = 0 := rfl
  obtain ⟨ls2, hrun, hrc, htr, hit, hku⟩ :=
    runPagesE_success_full (fun j => HttpResp.resp 200 (some (f j))) q f
      (m / 10) 0 (init_loop_state st q) hpool
      (fun j _ _ => rfl)
      (fun j _ _ => hfull j)
  have hgs : google_search (fun j => HttpResp.resp 200 (some (f j))) st q m =
      .ok ls2 := by
    unfold google_search
    rw [List.range_eq_range']
    exact hrun
  refine ⟨?_, ?_⟩
  · rw [hgs]
    show ls2.all_items = _
    rw [hit, h0rc, List.range_eq_range']
    rfl
  · intro slug ts i hi
    rw [hgs] at hi ⊢
    exact search_event_rows_rank slug ts (outcome_of (Except.ok ls2)) i hi

theorem pagination_order_preserving_witness :
    1 ≤ ([0] : List Nat).length ∧
    result_items
        (google_search (fun _ => HttpResp.resp 200 (some tenItemsPage))
          ⟨0, [0]⟩ "q" 20) =
      (List.range (20 / 10)).flatMap (fun _ => List.replicate 10 emptyItem) ∧
    ((search_event_rows "e"
        (outcome_of
          (google_search (fun _ => HttpResp.resp 200 (some tenItemsPage))
            ⟨0, [0]⟩ "q" 20))
        "ts").getD 15 fallbackRow).rank = some 16 := by
  have h := pagination_order_preserving (fun _ => tenItemsPage) ⟨0, [0]⟩ "q" 20
    (by decide) (fun j => rfl)
  refine ⟨by decide, ?_, ?_⟩
  · rw [h.1]
    decide
  · exact h.2 "e" "ts" 15 (by decide)

/-- C6: the `searchTerms`/`totalResults` metadata of the result is taken from
the first successful page-0 response only; whatever the oracle does on later
pages, their responses leave the two fields unchanged. -/
theorem metadata_from_first_page_only (oracle : Nat → HttpResp)
    (st : ScraperState) (q : String) (m t : Nat) (d : PageData)
    (ht : t < st.key_usage.length)
    (hfail : ∀ j, j < t → respFails (oracle j) = true)
    (hsucc : oracle t = HttpResp.resp 200 (some d))
    (h10 : 10 ≤ m) :
    result_search_terms (google_search oracle st q m) =
      (d.request0.bind ReqInfo.searchTerms).getD q ∧
    result_total_results (google_search oracle st q m) =
      (d.request0.bind ReqInfo.totalResults).getD "0" := by
  have hm1 : 1 ≤ m / 10 := (Nat.le_div_iff_mul_le (by omega)).mpr (by omega)
  have h0rc : (init_loop_state st q).reqCount = 0 := rfl
  have h0len : (init_loop_state st q).scraper.key_usage.length = st.key_usage.length := rfl
  obtain ⟨k, hk⟩ : ∃ k, m / 10 = k + 1 := ⟨m / 10 - 1, by omega⟩
  obtain ⟨ls1, hrun1, hrc1, htr1, hit1, hst1, htt1, hku1⟩ :=
    runAttemptsE_fail_prefix oracle q 0 t
      (init_loop_state st q).scraper.key_usage.length (init_loop_state st q)
      (by rw [h0len]; omega)
      (by
        intro j hj1 hj2
        rw [h0rc] at hj2
        exact hfail j (by omega))
  obtain ⟨f1, hf1⟩ : ∃ f1,
      (init_loop_state st q).scraper.key_usage.length - t = f1 + 1 := by
    rw [h0len]
    exact ⟨st.key_usage.length - t - 1, by omega⟩
  have hor1 : oracle ls1.reqCount = HttpResp.resp 200 (some d) := by
    rw [hrc1, h0rc, Nat.zero_add]
    exact hsucc
  have hstep := runAttemptsE_success_step oracle q 0 f1 ls1 d hor1
  have hatt : runAttemptsE oracle q 0
      (init_loop_state st q).scraper.key_usage.length (init_loop_state st q) =
      .ok (successState 0 q d ls1,
        if (d.items.getD []).length < 10 then InnerExit.shortCircuit
        else InnerExit.pageDone) := by
    rw [hrun1, hf1]
    exact hstep
  have hSst : (successState 0 q d ls1).search_terms =
      (d.request0.bind ReqInfo.searchTerms).getD q := by
    simp [successState]
  have hStt : (successState 0 q d ls1).total_results =
      (d.request0.bind ReqInfo.totalResults).getD "0" := by
    simp [successState]
  have hlist : List.range (m / 10) = 0 :: List.range' 1 k := by
    rw [hk, List.range_eq_range']
    exact List.range'_succ 0 k 1
  by_cases hlen : (d.items.getD []).length < 10
  · have hgs : google_search oracle st q m = .ok (successState 0 q d ls1) := by
      unfold google_search
      rw [hlist]
      simp only [runPagesE]
      rw [hatt, if_pos hlen]
    rw [hgs]
    exact ⟨hSst, hStt⟩
  · have hpg : runPagesE oracle q (0 :: List.range' 1 k) (init_loop_state st q) =
        runPagesE oracle q (List.range' 1 k) (successState 0 q d ls1) := by
      simp only [runPagesE]
      rw [hatt, if_neg hlen]
    obtain ⟨ls3, hrun3⟩ :=
      runPagesE_isOk oracle q (List.range' 1 k) (successState 0 q d ls1)
    have hne : ∀ x ∈ List.range' 1 k, x ≠ 0 := by
      intro x hx
      rw [List.mem_range'] at hx
      obtain ⟨i, hik, hxi⟩ := hx
      omega
    have hframe := runPagesE_frame_meta oracle q (List.range' 1 k) hne
      (successState 0 q d ls1) ls3 hrun3
    have hgs : google_search oracle st q m = .ok ls3 := by
      unfold google_search
      rw [hlist, hpg]
      exact hrun3
    rw [hgs]
    constructor
    · show ls3.search_terms = _
      rw [hframe.1, hSst]
    · show ls3.total_results = _
      rw [hframe.2, hStt]

theorem metadata_from_first_page_only_witness :
    0 < ([0] : List Nat).length ∧ (10 : Nat) ≤ 20 ∧
    result_search_terms
        (google_search (fun _ => HttpResp.resp 200 (some tenItemsPage))
          ⟨0, [0]⟩ "q" 20) = "terms" ∧
    result_total_results
        (google_search (fun _ => HttpResp.resp 200 (some tenItemsPage))
          ⟨0, [0]⟩ "q" 20) = "1234" := by
  have h := metadata_from_first_page_only
    (fun _ => HttpResp.resp 200 (some tenItemsPage)) ⟨0, [0]⟩ "q" 20 0 tenItemsPage
    (by decide)
    (fun j hj => absurd hj (Nat.not_lt_zero j))
    rfl
    (by decide)
  refine ⟨by decide, by decide, ?_, ?_⟩
  · rw [h.1]
    decide
  · rw [h.2]
    decide

/-- C10: when none of page 0's requests succeeds (the whole attempt budget is
spent on failures), the returned metadata keeps the initial defaults — the
echoed search terms equal the query and the total-results string is "0" —
even when later pages succeed and contribute items. -/
theorem metadata_defaults_when_page0_never_succeeds (oracle : Nat → HttpResp)
    (st : ScraperState) (q : String) (m : Nat)
    (hfail : ∀ j, j < st.key_usage.length → respFails (oracle j) = true) :
    result_search_terms (google_search oracle st q m) = q ∧
    result_total_results (google_search oracle st q m) = "0" := by
  by_cases hm : m / 10 = 0
  · unfold google_search
    rw [hm]
    exact ⟨rfl, rfl⟩
  · obtain ⟨k, hk⟩ : ∃ k, m / 10 = k + 1 := ⟨m / 10 - 1, by omega⟩
    have h0rc : (init_loop_state st q).reqCount = 0 := rfl
    have h0len : (init_loop_state st q).scraper.key_usage.length =
        st.key_usage.length := rfl
    obtain ⟨ls1, hrun1, hrc1, htr1, hit1, hst1, htt1, hku1⟩ :=
      runAttemptsE_fail_window oracle q 0
        (init_loop_state st q).scraper.key_usage.length (init_loop_state st q)
        (by
          intro j hj1 hj2
          rw [h0rc, h0len] at hj2
          exact hfail j (by omega))
    have hlist : List.range (m / 10) = 0 :: List.range' 1 k := by
      rw [hk, List.range_eq_range']
      exact List.range'_succ 0 k 1
    have hpg : runPagesE oracle q (0 :: List.range' 1 k) (init_loop_state st q) =
        runPagesE oracle q (List.range' 1 k) ls1 := by
      simp only [runPagesE]
      rw [hrun1]
    obtain ⟨ls3, hrun3⟩ := runPagesE_isOk oracle q (List.range' 1 k) ls1
    have hne : ∀ x ∈ List.range' 1 k, x ≠ 0 := by
      intro x hx
      rw [List.mem_range'] at hx
      obtain ⟨i, hik, hxi⟩ := hx
      omega
    have hframe := runPagesE_frame_meta oracle q (List.range' 1 k) hne ls1 ls3 hrun3
    have hgs : google_search oracle st q m = .ok ls3 := by
      unfold google_search
      rw [hlist, hpg]
      exact hrun3
    rw [hgs]
    constructor
    · show ls3.search_terms = _
      rw [hframe.1, hst1]
      rfl
    · show ls3.total_results = _
      rw [hframe.2, htt1]
      rfl

theorem metadata_defaults_when_page0_never_succeeds_witness :
    result_search_terms
        (google_search
          (fun j => if j = 0 then HttpResp.exn
            else HttpResp.resp 200 (some tenItemsPage))
          ⟨0, [0]⟩ "q" 20) = "q" ∧
    result_total_results
        (google_search
          (fun j => if j = 0 then HttpResp.exn
            else HttpResp.resp 200 (some tenItemsPage))
          ⟨0, [0]⟩ "q" 20) = "0" ∧
    (result_items
        (google_search
          (fun j => if j = 0 then HttpResp.exn
            else HttpResp.resp 200 (some tenItemsPage))
          ⟨0, [0]⟩ "q" 20)).length = 10 := by
  have h := metadata_defaults_when_page0_never_succeeds
    (fun j => if j = 0 then HttpResp.exn
      else HttpResp.resp 200 (some tenItemsPage))
    ⟨0, [0]⟩ "q" 20
    (by
      intro j hj
      have hj1 : j < 1 := hj
      have hj0 : j = 0 := by omega
      subst hj0
      rfl)
  exact ⟨h.1, h.2, by decide⟩
